import Mathlib

/-!
Shallow embedding of `filament/src/fg2/PassNode.cpp` (namespace `filament::fg2`),
restricted to the parts the verified claims are about: `RenderPassNode`'s
`declareRenderTarget`, `resolve`, `execute` and `getRenderTargetData`.

Modelling conventions:
* `backend::TargetBufferFlags` bit masks are `Nat` with the source's bit values
  (COLOR0 = 0x1 … COLOR3 = 0x8, DEPTH = 0x10, STENCIL = 0x20); `|=` is `|||`,
  `&` is `&&&` and `&= ~f` is `Nat.ldiff _ f`.
* `FrameGraphId` handles are `Option Nat` (`none` = invalid handle, i.e.
  `isValid()` is false); `ResourceNode*` pointers are `Option Nat` node ids
  (`none` = null).  Pointer equality of nodes is id equality.
* `ResourceNode::hasActiveReaders` / `hasWriter`, `FrameGraph::getResourceNode`,
  `Builder::write` and the resource allocator live outside this translation unit;
  they are abstracted as environments of uninterpreted functions, exactly the
  queries `PassNode.cpp` makes of them.
* The clear color (`math::float4`) is kept opaque as a `Nat` token: the code
  only ever copies it, never computes with it.
-/

namespace Filament

/-- Bit constant `backend::TargetBufferFlags::COLOR0` used by `RenderPassNode`. -/
def TargetBufferFlags.COLOR0 : Nat := 1

/-- Bit constant `backend::TargetBufferFlags::COLOR1`. -/
def TargetBufferFlags.COLOR1 : Nat := 2

/-- Bit constant `backend::TargetBufferFlags::COLOR2`. -/
def TargetBufferFlags.COLOR2 : Nat := 4

/-- Bit constant `backend::TargetBufferFlags::COLOR3`. -/
def TargetBufferFlags.COLOR3 : Nat := 8

/-- Bit constant `backend::TargetBufferFlags::DEPTH`. -/
def TargetBufferFlags.DEPTH : Nat := 16

/-- Bit constant `backend::TargetBufferFlags::STENCIL`. -/
def TargetBufferFlags.STENCIL : Nat := 32

/-- The local array `flags[6]` of `RenderPassNode::resolve` (PassNode.cpp:133):
COLOR0, COLOR1, COLOR2, COLOR3, DEPTH, STENCIL, i.e. bit `i` for slot `i`. -/
def slotFlags : Fin 6 → Nat
  | 0 => TargetBufferFlags.COLOR0
  | 1 => TargetBufferFlags.COLOR1
  | 2 => TargetBufferFlags.COLOR2
  | 3 => TargetBufferFlags.COLOR3
  | 4 => TargetBufferFlags.DEPTH
  | 5 => TargetBufferFlags.STENCIL

/-- Structure `backend::Viewport` (only copied by this code). -/
structure Viewport where
  left : Nat
  bottom : Nat
  width : Nat
  height : Nat
deriving DecidableEq, Repr

/-- Structure `backend::RenderPassFlags`: the discard/clear masks of the render pass
parameter block.  All default to NONE (value initialization). -/
structure RenderPassFlags where
  clear : Nat := 0
  discardStart : Nat := 0
  discardEnd : Nat := 0
deriving DecidableEq, Repr

/-- Structure `backend::RenderPassParams`, restricted to the fields PassNode.cpp touches. -/
structure RenderPassParams where
  flags : RenderPassFlags := {}
  viewport : Viewport := ⟨0, 0, 0, 0⟩
  clearColor : Nat := 0
deriving DecidableEq, Repr

/-- Structure `RenderTarget::Attachments`: 4 color attachments plus depth and stencil,
each a `FrameGraphId<Texture>` handle (`none` = invalid). -/
structure Attachments where
  color : Fin 4 → Option Nat
  depth : Option Nat
  stencil : Option Nat

/-- The six attachment slots in the order `RenderPassNode` uses: color 0-3,
then depth (slot 4), then stencil (slot 5). -/
def Attachments.slot (a : Attachments) : Fin 6 → Option Nat
  | 0 => a.color 0
  | 1 => a.color 1
  | 2 => a.color 2
  | 3 => a.color 3
  | 4 => a.depth
  | 5 => a.stencil

/-- Write one attachment slot (used to model the in-place updates
`attachments.color[i] = …`, `attachments.depth = …`, `attachments.stencil = …`). -/
def Attachments.setSlot (a : Attachments) (i : Fin 6) (v : Option Nat) : Attachments :=
  match i with
  | 0 => { a with color := Function.update a.color 0 v }
  | 1 => { a with color := Function.update a.color 1 v }
  | 2 => { a with color := Function.update a.color 2 v }
  | 3 => { a with color := Function.update a.color 3 v }
  | 4 => { a with depth := v }
  | 5 => { a with stencil := v }

/-- Structure `RenderTarget::Descriptor`: declared attachments, viewport, clear color,
sample count and clear flags. -/
structure Descriptor where
  attachments : Attachments
  viewport : Viewport := ⟨0, 0, 0, 0⟩
  clearColor : Nat := 0
  samples : Nat := 0
  clearFlags : Nat := 0

/-- The anonymous `backend` member of `RenderTargetData`: the realized render
target handle plus the render pass parameter block (`none` = null handle). -/
structure BackendData where
  target : Option Nat := none
  params : RenderPassParams := {}

/-- Structure `RenderPassNode::RenderTargetData` (fg2/details/PassNode.h): per-render-target
bookkeeping.  `incoming`/`outgoing` are `ResourceNode*` per slot, `attachmentInfo`
the resolved attachment handles, `targetBufferFlags` the active-buffer mask. -/
structure RenderTargetData where
  descriptor : Descriptor
  incoming : Fin 6 → Option Nat := fun _ => none
  outgoing : Fin 6 → Option Nat := fun _ => none
  attachmentInfo : Fin 6 → Option Nat := fun _ => none
  targetBufferFlags : Nat := 0
  backend : BackendData := {}

/-- The `ResourceNode` queries `RenderPassNode::resolve` makes, abstracted over
node ids: `hasWriter()` and `hasActiveReaders()` (derived over surviving edges,
implemented in ResourceNode.cpp, outside this translation unit). -/
structure ResourceNodeEnv where
  hasWriter : Nat → Bool
  hasActiveReaders : Nat → Bool

/-- Query `FrameGraph::getResourceNode`: maps a resource handle to its `ResourceNode`
(abstracted as an uninterpreted function on ids). -/
structure FrameGraphEnv where
  getResourceNode : Nat → Nat

/-- Values of `Texture::Usage` passed to `Builder::write` by `declareRenderTarget`. -/
inductive Usage where
  | COLOR_ATTACHMENT
  | DEPTH_ATTACHMENT
  | STENCIL_ATTACHMENT
deriving DecidableEq, Repr

/-- Operation `FrameGraph::Builder::write`: registers a write on the attachment and returns
the handle of the new resource version (abstracted as an uninterpreted function). -/
structure Builder where
  write : Nat → Usage → Nat

/-- The usage flag `declareRenderTarget` passes to `builder.write` for each slot:
COLOR_ATTACHMENT for color 0-3, DEPTH_ATTACHMENT for slot 4, STENCIL_ATTACHMENT
for slot 5. -/
def slotUsage : Fin 6 → Usage
  | 0 => Usage.COLOR_ATTACHMENT
  | 1 => Usage.COLOR_ATTACHMENT
  | 2 => Usage.COLOR_ATTACHMENT
  | 3 => Usage.COLOR_ATTACHMENT
  | 4 => Usage.DEPTH_ATTACHMENT
  | 5 => Usage.STENCIL_ATTACHMENT

/-- State of `RenderPassNode` relevant to the claims: the `mRenderTargetData`
vector. -/
structure RenderPassNode where
  mRenderTargetData : List RenderTargetData := []

/-- Return value of `declareRenderTarget`: `{ data.descriptor.attachments, id }`. -/
structure RenderTarget where
  attachments : Attachments
  id : Nat

/-- One iteration of the attachment-declaration loops of
`RenderPassNode::declareRenderTarget` (PassNode.cpp:93-115) for slot `i`:
if the slot's handle is valid, record the incoming `ResourceNode`, register a
write through the builder (storing the new handle back into the descriptor's
attachments), record the outgoing `ResourceNode` of the new version and the
resolved attachment handle.  (The source checks validity on the caller's
`descriptor` and reads the value from `data.descriptor.attachments`; the two are
identical here because slot `i` is first written at step `i`.) -/
def declareStep (fg : FrameGraphEnv) (builder : Builder) (data : RenderTargetData)
    (i : Fin 6) : RenderTargetData :=
  match data.descriptor.attachments.slot i with
  | none => data
  | some h =>
    let h2 := builder.write h (slotUsage i)
    { data with
      incoming := Function.update data.incoming i (some (fg.getResourceNode h)),
      outgoing := Function.update data.outgoing i (some (fg.getResourceNode h2)),
      attachmentInfo := Function.update data.attachmentInfo i (some h2),
      descriptor := { data.descriptor with
        attachments := data.descriptor.attachments.setSlot i (some h2) } }

/-- The normalization loop of `declareRenderTarget` (PassNode.cpp:117-123): if
the outgoing node equals the incoming node, there was no real incoming node
(the node was created but not used yet), so `incoming` is reset to null. -/
def normalizeIncoming (data : RenderTargetData) : RenderTargetData :=
  { data with
    incoming := fun i => if data.outgoing i = data.incoming i then none else data.incoming i }

/-- The attachment-declaration loops of `declareRenderTarget`
(PassNode.cpp:93-115) run over all six slots, before normalization. -/
def declareLoop (fg : FrameGraphEnv) (builder : Builder)
    (descriptor : Descriptor) : RenderTargetData :=
  ([0, 1, 2, 3, 4, 5] : List (Fin 6)).foldl (declareStep fg builder)
    { descriptor := descriptor }

/-- The `RenderTargetData` built by one `declareRenderTarget` call from the
given descriptor (before it is pushed onto `mRenderTargetData`). -/
def mkRenderTargetData (fg : FrameGraphEnv) (builder : Builder)
    (descriptor : Descriptor) : RenderTargetData :=
  normalizeIncoming (declareLoop fg builder descriptor)

/-- Operation `RenderPassNode::declareRenderTarget` (PassNode.cpp:84-128): build the
`RenderTargetData`, push it, and return the (rewritten) attachments together
with the index of the new entry. -/
def RenderPassNode.declareRenderTarget (node : RenderPassNode) (fg : FrameGraphEnv)
    (builder : Builder) (descriptor : Descriptor) : RenderPassNode × RenderTarget :=
  let data := mkRenderTargetData fg builder descriptor
  let id := node.mRenderTargetData.length
  ({ node with mRenderTargetData := node.mRenderTargetData ++ [data] },
   { attachments := data.descriptor.attachments, id := id })

/-- One iteration of the discard-flag loop of `RenderPassNode::resolve`
(PassNode.cpp:146-164) for slot `i`: if the slot has an outgoing node
(the proxy for "this pass has an attachment here"), OR the slot's flag into
`targetBufferFlags` and into both discard masks, then clear discard-at-end when
the outgoing node has active readers and discard-at-start when an incoming node
exists and has a writer; finally (unconditionally) OR the declared clear flags,
masked by the current `targetBufferFlags`, into discard-at-start. -/
def resolveSlot (env : ResourceNodeEnv) (rt : RenderTargetData) (i : Fin 6) :
    RenderTargetData :=
  let rt1 :=
    match rt.outgoing i with
    | none => rt
    | some n =>
      let tbf := rt.targetBufferFlags ||| slotFlags i
      let ds := rt.backend.params.flags.discardStart ||| slotFlags i
      let de := rt.backend.params.flags.discardEnd ||| slotFlags i
      let de := if env.hasActiveReaders n then Nat.ldiff de (slotFlags i) else de
      let ds :=
        match rt.incoming i with
        | some m => if env.hasWriter m then Nat.ldiff ds (slotFlags i) else ds
        | none => ds
      { rt with
        targetBufferFlags := tbf,
        backend.params.flags.discardStart := ds,
        backend.params.flags.discardEnd := de }
  { rt1 with
    backend.params.flags.discardStart :=
      rt1.backend.params.flags.discardStart |||
        (rt1.descriptor.clearFlags &&& rt1.targetBufferFlags) }

/-- Body of `RenderPassNode::resolve` for one `RenderTargetData` (the body of the loop
at PassNode.cpp:142-176): run the six slot iterations, then copy the declared
clear color, clear mask (restricted to the active buffers), and viewport into
the backend parameter block.  The source's `rt.descriptor.samples =
rt.descriptor.samples` self-assignment is reproduced verbatim (a no-op). -/
def resolveRenderTarget (env : ResourceNodeEnv) (rt : RenderTargetData) :
    RenderTargetData :=
  let rt1 := ([0, 1, 2, 3, 4, 5] : List (Fin 6)).foldl (resolveSlot env) rt
  { rt1 with
    backend.params.clearColor := rt1.descriptor.clearColor,
    backend.params.flags.clear := rt1.descriptor.clearFlags &&& rt1.targetBufferFlags,
    backend.params.viewport := rt1.descriptor.viewport,
    descriptor.samples := rt1.descriptor.samples }

/-- Operation `RenderPassNode::resolve` (PassNode.cpp:130-177): resolve every declared
render target. -/
def RenderPassNode.resolve (env : ResourceNodeEnv) (node : RenderPassNode) :
    RenderPassNode :=
  { node with mRenderTargetData := node.mRenderTargetData.map (resolveRenderTarget env) }

/-- Operation `RenderPassNode::getRenderTargetData` (PassNode.cpp:179-183): indexed access
into `mRenderTargetData`; the source asserts `id < mRenderTargetData.size()`. -/
def RenderPassNode.getRenderTargetData (node : RenderPassNode) (id : Nat)
    (h : id < node.mRenderTargetData.length) : RenderTargetData :=
  node.mRenderTargetData.get ⟨id, h⟩

/-- Query `FrameGraphResources::get` as used by `execute`: maps a resolved attachment
handle to the realized texture handle (abstracted). -/
structure Resources where
  get : Nat → Nat

/-- The `ResourceAllocatorInterface` abstracted for `execute`:
`createHandle k` is the render-target handle returned by the `k`-th
`createRenderTarget` call of this `execute` invocation. -/
structure AllocatorEnv where
  createHandle : Nat → Nat

/-- The arguments `execute` passes to `ResourceAllocatorInterface::createRenderTarget`
(PassNode.cpp:67-73): name, active-buffer flags, viewport width/height, samples,
the four color `TargetBufferInfo`s and the depth and stencil ones (`none` =
default-initialized info, i.e. a null texture handle). -/
structure CreateArgs where
  name : String
  targetBufferFlags : Nat
  width : Nat
  height : Nat
  samples : Nat
  color : Fin 4 → Option Nat
  depth : Option Nat
  stencil : Option Nat

/-- The `info[6]` array built by `execute` (PassNode.cpp:56-62): for each valid
attachment handle, look up the realized texture through the resources view. -/
def targetBufferInfo (resources : Resources) (rt : RenderTargetData) (i : Fin 6) :
    Option Nat :=
  (rt.attachmentInfo i).map resources.get

/-- The full argument record of the `createRenderTarget` call `execute` makes
for one render target. -/
def mkCreateArgs (resources : Resources) (rt : RenderTargetData) : CreateArgs where
  name := "name"
  targetBufferFlags := rt.targetBufferFlags
  width := rt.backend.params.viewport.width
  height := rt.backend.params.viewport.height
  samples := rt.descriptor.samples
  color := fun i => targetBufferInfo resources rt (Fin.castLE (by omega) i)
  depth := targetBufferInfo resources rt 4
  stencil := targetBufferInfo resources rt 5

/-- Observable interactions of one `RenderPassNode::execute` invocation with its
collaborators: allocator calls and the pass-executor callback. -/
inductive ExecuteEvent where
  | createRenderTarget (args : CreateArgs) (result : Nat)
  | executorCall
  | destroyRenderTarget (handle : Option Nat)

/-- The create loop of `execute` (PassNode.cpp:53-74), threading the creation
ordinal `k`: for each render target, assert `any(rt.targetBufferFlags)` (modelled
as returning `none` on failure), call `createRenderTarget` and store the new
handle into `rt.backend.target`. -/
def executeCreateLoop (alloc : AllocatorEnv) (resources : Resources) :
    List RenderTargetData → Nat → Option (List RenderTargetData × List ExecuteEvent)
  | [], _ => some ([], [])
  | rt :: rest, k =>
    if rt.targetBufferFlags = 0 then
      none
    else
      let h := alloc.createHandle k
      match executeCreateLoop alloc resources rest (k + 1) with
      | none => none
      | some (rts, evs) =>
        some ({ rt with backend.target := some h } :: rts,
          ExecuteEvent.createRenderTarget (mkCreateArgs resources rt) h :: evs)

/-- Operation `RenderPassNode::execute` (PassNode.cpp:47-82): create every declared render
target (asserting a non-empty active-buffer mask), invoke the pass executor, then
destroy every created render target.  The result is the updated node together
with the ordered event trace; `none` models an assertion failure. -/
def RenderPassNode.execute (alloc : AllocatorEnv) (resources : Resources)
    (node : RenderPassNode) : Option (RenderPassNode × List ExecuteEvent) :=
  match executeCreateLoop alloc resources node.mRenderTargetData 0 with
  | none => none
  | some (rts, createEvents) =>
    some ({ node with mRenderTargetData := rts },
      createEvents ++ [ExecuteEvent.executorCall] ++
        rts.map (fun rt => ExecuteEvent.destroyRenderTarget rt.backend.target))

/-! ### Helper predicates and characterization lemmas for `resolveSlot` -/

/-- Slot `i` is used by the pass: it has an outgoing node (the proxy the source
uses at PassNode.cpp:148). -/
def usedB (rt : RenderTargetData) (i : Fin 6) : Bool :=
  (rt.outgoing i).isSome

/-- The outgoing node of slot `i` exists and has active readers. -/
def readersB (env : ResourceNodeEnv) (rt : RenderTargetData) (i : Fin 6) : Bool :=
  match rt.outgoing i with
  | some n => env.hasActiveReaders n
  | none => false

/-- The incoming node of slot `i` exists and has a writer. -/
def writerB (env : ResourceNodeEnv) (rt : RenderTargetData) (i : Fin 6) : Bool :=
  match rt.incoming i with
  | some m => env.hasWriter m
  | none => false

theorem slotFlags_eq_two_pow (i : Fin 6) : slotFlags i = 2 ^ (i : Nat) := by
  fin_cases i <;> rfl

theorem slotFlags_testBit (i : Fin 6) (m : Nat) :
    (slotFlags i).testBit m = decide ((i : Nat) = m) := by
  rw [slotFlags_eq_two_pow, Nat.testBit_two_pow]

theorem resolveSlot_outgoing (env : ResourceNodeEnv) (rt : RenderTargetData) (i : Fin 6) :
    (resolveSlot env rt i).outgoing = rt.outgoing := by
  unfold resolveSlot
  cases h : rt.outgoing i <;> cases h2 : rt.incoming i <;> simp [h, h2]

theorem resolveSlot_incoming (env : ResourceNodeEnv) (rt : RenderTargetData) (i : Fin 6) :
    (resolveSlot env rt i).incoming = rt.incoming := by
  unfold resolveSlot
  cases h : rt.outgoing i <;> cases h2 : rt.incoming i <;> simp [h, h2]

theorem resolveSlot_attachmentInfo (env : ResourceNodeEnv) (rt : RenderTargetData)
    (i : Fin 6) : (resolveSlot env rt i).attachmentInfo = rt.attachmentInfo := by
  unfold resolveSlot
  cases h : rt.outgoing i <;> cases h2 : rt.incoming i <;> simp [h, h2]

theorem resolveSlot_descriptor (env : ResourceNodeEnv) (rt : RenderTargetData) (i : Fin 6) :
    (resolveSlot env rt i).descriptor = rt.descriptor := by
  unfold resolveSlot
  cases h : rt.outgoing i <;> cases h2 : rt.incoming i <;> simp [h, h2]

theorem resolveSlot_target (env : ResourceNodeEnv) (rt : RenderTargetData) (i : Fin 6) :
    (resolveSlot env rt i).backend.target = rt.backend.target := by
  unfold resolveSlot
  cases h : rt.outgoing i <;> cases h2 : rt.incoming i <;> simp [h, h2]

theorem resolveSlot_viewport (env : ResourceNodeEnv) (rt : RenderTargetData) (i : Fin 6) :
    (resolveSlot env rt i).backend.params.viewport = rt.backend.params.viewport := by
  unfold resolveSlot
  cases h : rt.outgoing i <;> cases h2 : rt.incoming i <;> simp [h, h2]

theorem resolveSlot_clearColor (env : ResourceNodeEnv) (rt : RenderTargetData) (i : Fin 6) :
    (resolveSlot env rt i).backend.params.clearColor = rt.backend.params.clearColor := by
  unfold resolveSlot
  cases h : rt.outgoing i <;> cases h2 : rt.incoming i <;> simp [h, h2]

theorem resolveSlot_clear (env : ResourceNodeEnv) (rt : RenderTargetData) (i : Fin 6) :
    (resolveSlot env rt i).backend.params.flags.clear = rt.backend.params.flags.clear := by
  unfold resolveSlot
  cases h : rt.outgoing i <;> cases h2 : rt.incoming i <;> simp [h, h2]

theorem resolveSlot_tbf (env : ResourceNodeEnv) (rt : RenderTargetData) (i : Fin 6) :
    (resolveSlot env rt i).targetBufferFlags =
      if usedB rt i then rt.targetBufferFlags ||| slotFlags i
      else rt.targetBufferFlags := by
  unfold resolveSlot usedB
  cases h : rt.outgoing i <;> cases h2 : rt.incoming i <;> simp [h, h2]

theorem resolveSlot_de (env : ResourceNodeEnv) (rt : RenderTargetData) (i : Fin 6) :
    (resolveSlot env rt i).backend.params.flags.discardEnd =
      if usedB rt i then
        (if readersB env rt i then
          Nat.ldiff (rt.backend.params.flags.discardEnd ||| slotFlags i) (slotFlags i)
        else rt.backend.params.flags.discardEnd ||| slotFlags i)
      else rt.backend.params.flags.discardEnd := by
  unfold resolveSlot usedB readersB
  cases h : rt.outgoing i <;> cases h2 : rt.incoming i <;> simp [h, h2]

theorem resolveSlot_ds (env : ResourceNodeEnv) (rt : RenderTargetData) (i : Fin 6) :
    (resolveSlot env rt i).backend.params.flags.discardStart =
      (if usedB rt i then
        (if writerB env rt i then
          Nat.ldiff (rt.backend.params.flags.discardStart ||| slotFlags i) (slotFlags i)
        else rt.backend.params.flags.discardStart ||| slotFlags i)
      else rt.backend.params.flags.discardStart) |||
        (rt.descriptor.clearFlags &&& (resolveSlot env rt i).targetBufferFlags) := by
  rw [resolveSlot_tbf]
  unfold resolveSlot usedB writerB
  cases h : rt.outgoing i <;> cases h2 : rt.incoming i <;> simp [h, h2]

theorem usedB_resolveSlot (env : ResourceNodeEnv) (rt : RenderTargetData) (j i : Fin 6) :
    usedB (resolveSlot env rt j) i = usedB rt i := by
  unfold usedB; rw [resolveSlot_outgoing]

theorem readersB_resolveSlot (env : ResourceNodeEnv) (rt : RenderTargetData) (j i : Fin 6) :
    readersB env (resolveSlot env rt j) i = readersB env rt i := by
  unfold readersB; rw [resolveSlot_outgoing]

theorem writerB_resolveSlot (env : ResourceNodeEnv) (rt : RenderTargetData) (j i : Fin 6) :
    writerB env (resolveSlot env rt j) i = writerB env rt i := by
  unfold writerB; rw [resolveSlot_incoming]

theorem clearFlags_resolveSlot (env : ResourceNodeEnv) (rt : RenderTargetData) (j : Fin 6) :
    (resolveSlot env rt j).descriptor.clearFlags = rt.descriptor.clearFlags := by
  rw [resolveSlot_descriptor]

theorem resolveSlot_tbf_testBit (env : ResourceNodeEnv) (rt : RenderTargetData) (i : Fin 6)
    (m : Nat) :
    ((resolveSlot env rt i).targetBufferFlags).testBit m =
      (rt.targetBufferFlags.testBit m || (usedB rt i && decide ((i : Nat) = m))) := by
  rw [resolveSlot_tbf]
  by_cases hu : usedB rt i <;> simp [hu, Nat.testBit_lor, slotFlags_testBit]

theorem resolveSlot_de_testBit (env : ResourceNodeEnv) (rt : RenderTargetData) (i : Fin 6)
    (m : Nat) :
    ((resolveSlot env rt i).backend.params.flags.discardEnd).testBit m =
      if usedB rt i ∧ (i : Nat) = m then !(readersB env rt i)
      else rt.backend.params.flags.discardEnd.testBit m := by
  rw [resolveSlot_de]
  by_cases hu : usedB rt i <;> by_cases hr : readersB env rt i <;>
    by_cases hm : (i : Nat) = m <;>
    simp [hu, hr, hm, Nat.testBit_lor, Nat.testBit_ldiff, slotFlags_testBit]

theorem resolveSlot_ds_testBit (env : ResourceNodeEnv) (rt : RenderTargetData) (i : Fin 6)
    (m : Nat) :
    ((resolveSlot env rt i).backend.params.flags.discardStart).testBit m =
      ((if usedB rt i ∧ (i : Nat) = m then !(writerB env rt i)
        else rt.backend.params.flags.discardStart.testBit m) ||
       (rt.descriptor.clearFlags.testBit m &&
        (rt.targetBufferFlags.testBit m || (usedB rt i && decide ((i : Nat) = m))))) := by
  rw [resolveSlot_ds, resolveSlot_tbf]
  by_cases hu : usedB rt i <;> by_cases hw : writerB env rt i <;>
    by_cases hm : (i : Nat) = m <;>
    simp [hu, hw, hm, Nat.testBit_lor, Nat.testBit_ldiff, Nat.testBit_land, slotFlags_testBit]

theorem fin6_val_zero : ((0 : Fin 6) : Nat) = 0 := rfl

theorem fin6_val_one : ((1 : Fin 6) : Nat) = 1 := rfl

theorem fin6_val_two : ((2 : Fin 6) : Nat) = 2 := rfl

theorem fin6_val_three : ((3 : Fin 6) : Nat) = 3 := rfl

theorem fin6_val_four : ((4 : Fin 6) : Nat) = 4 := rfl

theorem fin6_val_five : ((5 : Fin 6) : Nat) = 5 := rfl

theorem resolveRT_outgoing (env : ResourceNodeEnv) (rt : RenderTargetData) :
    (resolveRenderTarget env rt).outgoing = rt.outgoing := by
  unfold resolveRenderTarget
  simp [List.foldl_cons, List.foldl_nil, resolveSlot_outgoing]

theorem resolveRT_incoming (env : ResourceNodeEnv) (rt : RenderTargetData) :
    (resolveRenderTarget env rt).incoming = rt.incoming := by
  unfold resolveRenderTarget
  simp [List.foldl_cons, List.foldl_nil, resolveSlot_incoming]

theorem resolveRT_attachmentInfo (env : ResourceNodeEnv) (rt : RenderTargetData) :
    (resolveRenderTarget env rt).attachmentInfo = rt.attachmentInfo := by
  unfold resolveRenderTarget
  simp [List.foldl_cons, List.foldl_nil, resolveSlot_attachmentInfo]

theorem resolveRT_descriptor (env : ResourceNodeEnv) (rt : RenderTargetData) :
    (resolveRenderTarget env rt).descriptor = rt.descriptor := by
  unfold resolveRenderTarget
  simp [List.foldl_cons, List.foldl_nil, resolveSlot_descriptor]

theorem resolveRT_target (env : ResourceNodeEnv) (rt : RenderTargetData) :
    (resolveRenderTarget env rt).backend.target = rt.backend.target := by
  unfold resolveRenderTarget
  simp [List.foldl_cons, List.foldl_nil, resolveSlot_target]

theorem resolveRT_clearColor (env : ResourceNodeEnv) (rt : RenderTargetData) :
    (resolveRenderTarget env rt).backend.params.clearColor = rt.descriptor.clearColor := by
  unfold resolveRenderTarget
  simp [List.foldl_cons, List.foldl_nil, resolveSlot_descriptor]

theorem resolveRT_viewport (env : ResourceNodeEnv) (rt : RenderTargetData) :
    (resolveRenderTarget env rt).backend.params.viewport = rt.descriptor.viewport := by
  unfold resolveRenderTarget
  simp [List.foldl_cons, List.foldl_nil, resolveSlot_descriptor]

theorem resolveRT_clear (env : ResourceNodeEnv) (rt : RenderTargetData) :
    (resolveRenderTarget env rt).backend.params.flags.clear =
      rt.descriptor.clearFlags &&& (resolveRenderTarget env rt).targetBufferFlags := by
  unfold resolveRenderTarget
  simp [List.foldl_cons, List.foldl_nil, resolveSlot_descriptor]

theorem resolveRT_tbf_testBit (env : ResourceNodeEnv) (rt : RenderTargetData) (m : Nat) :
    ((resolveRenderTarget env rt).targetBufferFlags).testBit m =
      (rt.targetBufferFlags.testBit m ||
        (if h : m < 6 then usedB rt ⟨m, h⟩ else false)) := by
  unfold resolveRenderTarget
  simp only [List.foldl_cons, List.foldl_nil]
  simp [resolveSlot_tbf_testBit, usedB_resolveSlot,
    fin6_val_zero, fin6_val_one, fin6_val_two, fin6_val_three, fin6_val_four, fin6_val_five]
  by_cases hm : m < 6
  · interval_cases m <;> simp [Bool.or_assoc, Bool.or_comm, Bool.or_left_comm]
  · have h0 : ¬((0 : Nat) = m) := by omega
    have h1 : ¬((1 : Nat) = m) := by omega
    have h2 : ¬((2 : Nat) = m) := by omega
    have h3 : ¬((3 : Nat) = m) := by omega
    have h4 : ¬((4 : Nat) = m) := by omega
    have h5 : ¬((5 : Nat) = m) := by omega
    simp [h0, h1, h2, h3, h4, h5, hm]

theorem resolveRT_de_testBit (env : ResourceNodeEnv) (rt : RenderTargetData) (m : Nat) :
    ((resolveRenderTarget env rt).backend.params.flags.discardEnd).testBit m =
      if h : m < 6 then
        (if usedB rt ⟨m, h⟩ then !(readersB env rt ⟨m, h⟩)
         else rt.backend.params.flags.discardEnd.testBit m)
      else rt.backend.params.flags.discardEnd.testBit m := by
  unfold resolveRenderTarget
  simp only [List.foldl_cons, List.foldl_nil]
  simp [resolveSlot_de_testBit, usedB_resolveSlot, readersB_resolveSlot,
    fin6_val_zero, fin6_val_one, fin6_val_two, fin6_val_three, fin6_val_four, fin6_val_five]
  by_cases hm : m < 6
  · interval_cases m <;> simp
  · have h0 : ¬((0 : Nat) = m) := by omega
    have h1 : ¬((1 : Nat) = m) := by omega
    have h2 : ¬((2 : Nat) = m) := by omega
    have h3 : ¬((3 : Nat) = m) := by omega
    have h4 : ¬((4 : Nat) = m) := by omega
    have h5 : ¬((5 : Nat) = m) := by omega
    simp [h0, h1, h2, h3, h4, h5, hm]

theorem resolveRT_ds_testBit (env : ResourceNodeEnv) (rt : RenderTargetData) (m : Nat) :
    ((resolveRenderTarget env rt).backend.params.flags.discardStart).testBit m =
      if h : m < 6 then
        (if usedB rt ⟨m, h⟩ then
          (!(writerB env rt ⟨m, h⟩) || rt.descriptor.clearFlags.testBit m)
         else
          (rt.backend.params.flags.discardStart.testBit m ||
            (rt.descriptor.clearFlags.testBit m && rt.targetBufferFlags.testBit m)))
      else
        (rt.backend.params.flags.discardStart.testBit m ||
          (rt.descriptor.clearFlags.testBit m && rt.targetBufferFlags.testBit m)) := by
  unfold resolveRenderTarget
  simp only [List.foldl_cons, List.foldl_nil]
  simp [resolveSlot_ds_testBit, resolveSlot_tbf_testBit, usedB_resolveSlot, writerB_resolveSlot,
    clearFlags_resolveSlot, resolveSlot_descriptor,
    fin6_val_zero, fin6_val_one, fin6_val_two, fin6_val_three, fin6_val_four, fin6_val_five]
  by_cases hm : m < 6
  · interval_cases m
    · cases hu : usedB rt 0 <;> cases hw : writerB env rt 0 <;>
        cases hcf : rt.descriptor.clearFlags.testBit 0 <;>
        cases ht : rt.targetBufferFlags.testBit 0 <;>
        cases hds : rt.backend.params.flags.discardStart.testBit 0 <;>
        simp [hu, hw, hcf, ht, hds]
    · cases hu : usedB rt 1 <;> cases hw : writerB env rt 1 <;>
        cases hcf : rt.descriptor.clearFlags.testBit 1 <;>
        cases ht : rt.targetBufferFlags.testBit 1 <;>
        cases hds : rt.backend.params.flags.discardStart.testBit 1 <;>
        simp [hu, hw, hcf, ht, hds]
    · cases hu : usedB rt 2 <;> cases hw : writerB env rt 2 <;>
        cases hcf : rt.descriptor.clearFlags.testBit 2 <;>
        cases ht : rt.targetBufferFlags.testBit 2 <;>
        cases hds : rt.backend.params.flags.discardStart.testBit 2 <;>
        simp [hu, hw, hcf, ht, hds]
    · cases hu : usedB rt 3 <;> cases hw : writerB env rt 3 <;>
        cases hcf : rt.descriptor.clearFlags.testBit 3 <;>
        cases ht : rt.targetBufferFlags.testBit 3 <;>
        cases hds : rt.backend.params.flags.discardStart.testBit 3 <;>
        simp [hu, hw, hcf, ht, hds]
    · cases hu : usedB rt 4 <;> cases hw : writerB env rt 4 <;>
        cases hcf : rt.descriptor.clearFlags.testBit 4 <;>
        cases ht : rt.targetBufferFlags.testBit 4 <;>
        cases hds : rt.backend.params.flags.discardStart.testBit 4 <;>
        simp [hu, hw, hcf, ht, hds]
    · cases hu : usedB rt 5 <;> cases hw : writerB env rt 5 <;>
        cases hcf : rt.descriptor.clearFlags.testBit 5 <;>
        cases ht : rt.targetBufferFlags.testBit 5 <;>
        cases hds : rt.backend.params.flags.discardStart.testBit 5 <;>
        simp [hu, hw, hcf, ht, hds]
  · have h0 : ¬((0 : Nat) = m) := by omega
    have h1 : ¬((1 : Nat) = m) := by omega
    have h2 : ¬((2 : Nat) = m) := by omega
    have h3 : ¬((3 : Nat) = m) := by omega
    have h4 : ¬((4 : Nat) = m) := by omega
    have h5 : ¬((5 : Nat) = m) := by omega
    simp [h0, h1, h2, h3, h4, h5, hm]

theorem usedB_resolveRT (env : ResourceNodeEnv) (rt : RenderTargetData) (i : Fin 6) :
    usedB (resolveRenderTarget env rt) i = usedB rt i := by
  unfold usedB; rw [resolveRT_outgoing]

theorem readersB_resolveRT (env : ResourceNodeEnv) (rt : RenderTargetData) (i : Fin 6) :
    readersB env (resolveRenderTarget env rt) i = readersB env rt i := by
  unfold readersB; rw [resolveRT_outgoing]

theorem writerB_resolveRT (env : ResourceNodeEnv) (rt : RenderTargetData) (i : Fin 6) :
    writerB env (resolveRenderTarget env rt) i = writerB env rt i := by
  unfold writerB; rw [resolveRT_incoming]

theorem renderPassFlagsExt (a b : RenderPassFlags) (h1 : a.clear = b.clear)
    (h2 : a.discardStart = b.discardStart) (h3 : a.discardEnd = b.discardEnd) : a = b := by
  cases a; cases b; simp_all

theorem renderPassParamsExt (a b : RenderPassParams) (h1 : a.flags = b.flags)
    (h2 : a.viewport = b.viewport) (h3 : a.clearColor = b.clearColor) : a = b := by
  cases a; cases b; simp_all

theorem backendDataExt (a b : BackendData) (h1 : a.target = b.target)
    (h2 : a.params = b.params) : a = b := by
  cases a; cases b; simp_all

theorem renderTargetDataExt (a b : RenderTargetData) (h1 : a.descriptor = b.descriptor)
    (h2 : a.incoming = b.incoming) (h3 : a.outgoing = b.outgoing)
    (h4 : a.attachmentInfo = b.attachmentInfo) (h5 : a.targetBufferFlags = b.targetBufferFlags)
    (h6 : a.backend = b.backend) : a = b := by
  cases a; cases b; simp_all

theorem resolveRT_tbf_idem (env : ResourceNodeEnv) (rt : RenderTargetData) :
    (resolveRenderTarget env (resolveRenderTarget env rt)).targetBufferFlags =
      (resolveRenderTarget env rt).targetBufferFlags := by
  apply Nat.eq_of_testBit_eq
  intro m
  simp only [resolveRT_tbf_testBit, usedB_resolveRT]
  by_cases hm : m < 6 <;>
    simp [hm, Bool.or_assoc]

theorem resolveRT_de_idem (env : ResourceNodeEnv) (rt : RenderTargetData) :
    (resolveRenderTarget env (resolveRenderTarget env rt)).backend.params.flags.discardEnd =
      (resolveRenderTarget env rt).backend.params.flags.discardEnd := by
  apply Nat.eq_of_testBit_eq
  intro m
  simp only [resolveRT_de_testBit, usedB_resolveRT, readersB_resolveRT]
  by_cases hm : m < 6
  · by_cases hu : usedB rt ⟨m, hm⟩ <;> simp [hm, hu]
  · simp [hm]

theorem resolveRT_ds_idem (env : ResourceNodeEnv) (rt : RenderTargetData) :
    (resolveRenderTarget env (resolveRenderTarget env rt)).backend.params.flags.discardStart =
      (resolveRenderTarget env rt).backend.params.flags.discardStart := by
  apply Nat.eq_of_testBit_eq
  intro m
  simp only [resolveRT_ds_testBit, resolveRT_tbf_testBit, resolveRT_descriptor,
    usedB_resolveRT, writerB_resolveRT]
  by_cases hm : m < 6
  · simp only [hm, dif_pos, dite_true]
    rcases hu : usedB rt ⟨m, hm⟩ <;>
      simp [hu, Bool.or_assoc, Bool.and_or_distrib_left, Bool.or_comm, Bool.or_left_comm]
  · simp [hm, Bool.or_assoc, Bool.and_or_distrib_left, Bool.or_comm, Bool.or_left_comm]

theorem resolveRT_idem (env : ResourceNodeEnv) (rt : RenderTargetData) :
    resolveRenderTarget env (resolveRenderTarget env rt) = resolveRenderTarget env rt := by
  apply renderTargetDataExt
  · rw [resolveRT_descriptor]
  · rw [resolveRT_incoming]
  · rw [resolveRT_outgoing]
  · rw [resolveRT_attachmentInfo]
  · exact resolveRT_tbf_idem env rt
  · apply backendDataExt
    · rw [resolveRT_target]
    · apply renderPassParamsExt
      · apply renderPassFlagsExt
        · rw [resolveRT_clear, resolveRT_clear, resolveRT_descriptor, resolveRT_tbf_idem]
        · exact resolveRT_ds_idem env rt
        · exact resolveRT_de_idem env rt
      · rw [resolveRT_viewport, resolveRT_viewport, resolveRT_descriptor]
      · rw [resolveRT_clearColor, resolveRT_clearColor, resolveRT_descriptor]

/-! ### Characterization of `declareRenderTarget` -/

theorem Attachments.slot_setSlot_self (a : Attachments) (i : Fin 6) (v : Option Nat) :
    (a.setSlot i v).slot i = v := by
  fin_cases i <;> simp [Attachments.slot, Attachments.setSlot]

theorem Attachments.slot_setSlot_ne (a : Attachments) (i j : Fin 6) (v : Option Nat)
    (h : i ≠ j) : (a.setSlot j v).slot i = a.slot i := by
  fin_cases i <;> fin_cases j <;>
    simp_all [Attachments.slot, Attachments.setSlot, Function.update]

theorem declareStep_incoming_ne (fg : FrameGraphEnv) (b : Builder) (data : RenderTargetData)
    (i j : Fin 6) (hne : i ≠ j) :
    (declareStep fg b data j).incoming i = data.incoming i := by
  unfold declareStep
  cases h : data.descriptor.attachments.slot j <;> simp [h, Function.update_noteq hne]

theorem declareStep_outgoing_ne (fg : FrameGraphEnv) (b : Builder) (data : RenderTargetData)
    (i j : Fin 6) (hne : i ≠ j) :
    (declareStep fg b data j).outgoing i = data.outgoing i := by
  unfold declareStep
  cases h : data.descriptor.attachments.slot j <;> simp [h, Function.update_noteq hne]

theorem declareStep_attachmentInfo_ne (fg : FrameGraphEnv) (b : Builder)
    (data : RenderTargetData) (i j : Fin 6) (hne : i ≠ j) :
    (declareStep fg b data j).attachmentInfo i = data.attachmentInfo i := by
  unfold declareStep
  cases h : data.descriptor.attachments.slot j <;> simp [h, Function.update_noteq hne]

theorem declareStep_slot_ne (fg : FrameGraphEnv) (b : Builder) (data : RenderTargetData)
    (i j : Fin 6) (hne : i ≠ j) :
    (declareStep fg b data j).descriptor.attachments.slot i =
      data.descriptor.attachments.slot i := by
  unfold declareStep
  cases h : data.descriptor.attachments.slot j <;>
    simp [h, Attachments.slot_setSlot_ne _ _ _ _ hne]

theorem declareStep_incoming_self (fg : FrameGraphEnv) (b : Builder) (data : RenderTargetData)
    (i : Fin 6) (hdl : Nat) (h : data.descriptor.attachments.slot i = some hdl) :
    (declareStep fg b data i).incoming i = some (fg.getResourceNode hdl) := by
  unfold declareStep
  simp [h]

theorem declareStep_outgoing_self (fg : FrameGraphEnv) (b : Builder) (data : RenderTargetData)
    (i : Fin 6) (hdl : Nat) (h : data.descriptor.attachments.slot i = some hdl) :
    (declareStep fg b data i).outgoing i =
      some (fg.getResourceNode (b.write hdl (slotUsage i))) := by
  unfold declareStep
  simp [h]

theorem declareStep_attachmentInfo_self (fg : FrameGraphEnv) (b : Builder)
    (data : RenderTargetData) (i : Fin 6) (hdl : Nat)
    (h : data.descriptor.attachments.slot i = some hdl) :
    (declareStep fg b data i).attachmentInfo i = some (b.write hdl (slotUsage i)) := by
  unfold declareStep
  simp [h]

theorem declareStep_slot_self (fg : FrameGraphEnv) (b : Builder) (data : RenderTargetData)
    (i : Fin 6) (hdl : Nat) (h : data.descriptor.attachments.slot i = some hdl) :
    (declareStep fg b data i).descriptor.attachments.slot i =
      some (b.write hdl (slotUsage i)) := by
  unfold declareStep
  simp [h, Attachments.slot_setSlot_self]

theorem declareStep_none (fg : FrameGraphEnv) (b : Builder) (data : RenderTargetData)
    (i : Fin 6) (h : data.descriptor.attachments.slot i = none) :
    declareStep fg b data i = data := by
  unfold declareStep
  simp [h]

theorem declareStep_samples (fg : FrameGraphEnv) (b : Builder) (data : RenderTargetData)
    (j : Fin 6) : (declareStep fg b data j).descriptor.samples = data.descriptor.samples := by
  unfold declareStep
  cases h : data.descriptor.attachments.slot j <;> simp [h]

theorem declareStep_viewport (fg : FrameGraphEnv) (b : Builder) (data : RenderTargetData)
    (j : Fin 6) : (declareStep fg b data j).descriptor.viewport = data.descriptor.viewport := by
  unfold declareStep
  cases h : data.descriptor.attachments.slot j <;> simp [h]

theorem declareStep_clearColor (fg : FrameGraphEnv) (b : Builder) (data : RenderTargetData)
    (j : Fin 6) :
    (declareStep fg b data j).descriptor.clearColor = data.descriptor.clearColor := by
  unfold declareStep
  cases h : data.descriptor.attachments.slot j <;> simp [h]

theorem declareStep_clearFlags (fg : FrameGraphEnv) (b : Builder) (data : RenderTargetData)
    (j : Fin 6) :
    (declareStep fg b data j).descriptor.clearFlags = data.descriptor.clearFlags := by
  unfold declareStep
  cases h : data.descriptor.attachments.slot j <;> simp [h]

theorem declareStep_tbf (fg : FrameGraphEnv) (b : Builder) (data : RenderTargetData)
    (j : Fin 6) : (declareStep fg b data j).targetBufferFlags = data.targetBufferFlags := by
  unfold declareStep
  cases h : data.descriptor.attachments.slot j <;> simp [h]

theorem declareStep_backend (fg : FrameGraphEnv) (b : Builder) (data : RenderTargetData)
    (j : Fin 6) : (declareStep fg b data j).backend = data.backend := by
  unfold declareStep
  cases h : data.descriptor.attachments.slot j <;> simp [h]

theorem declareLoop_incoming_some (fg : FrameGraphEnv) (b : Builder) (d : Descriptor)
    (i : Fin 6) (hdl : Nat) (h : d.attachments.slot i = some hdl) :
    (declareLoop fg b d).incoming i = some (fg.getResourceNode hdl) := by
  fin_cases i <;>
    simp_all [declareLoop, List.foldl_cons, List.foldl_nil, declareStep_incoming_ne,
      declareStep_slot_ne, declareStep_incoming_self]

theorem declareLoop_outgoing_some (fg : FrameGraphEnv) (b : Builder) (d : Descriptor)
    (i : Fin 6) (hdl : Nat) (h : d.attachments.slot i = some hdl) :
    (declareLoop fg b d).outgoing i =
      some (fg.getResourceNode (b.write hdl (slotUsage i))) := by
  fin_cases i <;>
    simp_all [declareLoop, List.foldl_cons, List.foldl_nil, declareStep_outgoing_ne,
      declareStep_slot_ne, declareStep_outgoing_self]

theorem declareLoop_attachmentInfo_some (fg : FrameGraphEnv) (b : Builder) (d : Descriptor)
    (i : Fin 6) (hdl : Nat) (h : d.attachments.slot i = some hdl) :
    (declareLoop fg b d).attachmentInfo i = some (b.write hdl (slotUsage i)) := by
  fin_cases i <;>
    simp_all [declareLoop, List.foldl_cons, List.foldl_nil, declareStep_attachmentInfo_ne,
      declareStep_slot_ne, declareStep_attachmentInfo_self]

theorem declareLoop_slot_some (fg : FrameGraphEnv) (b : Builder) (d : Descriptor)
    (i : Fin 6) (hdl : Nat) (h : d.attachments.slot i = some hdl) :
    (declareLoop fg b d).descriptor.attachments.slot i =
      some (b.write hdl (slotUsage i)) := by
  fin_cases i <;>
    simp_all [declareLoop, List.foldl_cons, List.foldl_nil, declareStep_slot_ne,
      declareStep_slot_self]

theorem declareLoop_incoming_none (fg : FrameGraphEnv) (b : Builder) (d : Descriptor)
    (i : Fin 6) (h : d.attachments.slot i = none) :
    (declareLoop fg b d).incoming i = none := by
  fin_cases i <;>
    simp_all [declareLoop, List.foldl_cons, List.foldl_nil, declareStep_incoming_ne,
      declareStep_slot_ne, declareStep_none]

theorem declareLoop_outgoing_none (fg : FrameGraphEnv) (b : Builder) (d : Descriptor)
    (i : Fin 6) (h : d.attachments.slot i = none) :
    (declareLoop fg b d).outgoing i = none := by
  fin_cases i <;>
    simp_all [declareLoop, List.foldl_cons, List.foldl_nil, declareStep_outgoing_ne,
      declareStep_slot_ne, declareStep_none]

theorem declareLoop_attachmentInfo_none (fg : FrameGraphEnv) (b : Builder) (d : Descriptor)
    (i : Fin 6) (h : d.attachments.slot i = none) :
    (declareLoop fg b d).attachmentInfo i = none := by
  fin_cases i <;>
    simp_all [declareLoop, List.foldl_cons, List.foldl_nil, declareStep_attachmentInfo_ne,
      declareStep_slot_ne, declareStep_none]

/-! ### Characterization of `execute` -/

theorem executeCreateLoop_eq (alloc : AllocatorEnv) (res : Resources)
    (rts : List RenderTargetData) (k : Nat)
    (h : ∀ rt ∈ rts, rt.targetBufferFlags ≠ 0) :
    executeCreateLoop alloc res rts k =
      some ((rts.enumFrom k).map
              (fun p => { p.2 with backend.target := some (alloc.createHandle p.1) }),
            (rts.enumFrom k).map
              (fun p => ExecuteEvent.createRenderTarget (mkCreateArgs res p.2)
                (alloc.createHandle p.1))) := by
  induction rts generalizing k with
  | nil => simp [executeCreateLoop]
  | cons rt rest ih =>
    have hrt : rt.targetBufferFlags ≠ 0 := h rt (by simp)
    have hrest : ∀ r ∈ rest, r.targetBufferFlags ≠ 0 := fun r hr => h r (by simp [hr])
    simp [executeCreateLoop, hrt, ih (k + 1) hrest]

theorem executeCreateLoop_none (alloc : AllocatorEnv) (res : Resources)
    (rts : List RenderTargetData) (k : Nat)
    (h : ∃ rt ∈ rts, rt.targetBufferFlags = 0) :
    executeCreateLoop alloc res rts k = none := by
  induction rts generalizing k with
  | nil => simp at h
  | cons rt rest ih =>
    rcases h with ⟨r, hr, hr0⟩
    rcases List.mem_cons.mp hr with rfl | hmem
    · simp [executeCreateLoop, hr0]
    · by_cases h0 : rt.targetBufferFlags = 0
      · simp [executeCreateLoop, h0]
      · simp [executeCreateLoop, h0, ih (k + 1) ⟨r, hmem, hr0⟩]

theorem execute_eq (alloc : AllocatorEnv) (res : Resources) (node : RenderPassNode)
    (h : ∀ rt ∈ node.mRenderTargetData, rt.targetBufferFlags ≠ 0) :
    node.execute alloc res =
      some ({ mRenderTargetData := (node.mRenderTargetData.enumFrom 0).map
                (fun p => { p.2 with backend.target := some (alloc.createHandle p.1) }) },
            ((node.mRenderTargetData.enumFrom 0).map
              (fun p => ExecuteEvent.createRenderTarget (mkCreateArgs res p.2)
                (alloc.createHandle p.1))) ++
            [ExecuteEvent.executorCall] ++
            ((node.mRenderTargetData.enumFrom 0).map
              (fun p => ExecuteEvent.destroyRenderTarget
                (some (alloc.createHandle p.1))))) := by
  unfold RenderPassNode.execute
  rw [executeCreateLoop_eq alloc res _ 0 h]
  simp [List.map_map, Function.comp]

theorem execute_none (alloc : AllocatorEnv) (res : Resources) (node : RenderPassNode)
    (h : ∃ rt ∈ node.mRenderTargetData, rt.targetBufferFlags = 0) :
    node.execute alloc res = none := by
  unfold RenderPassNode.execute
  rw [executeCreateLoop_none alloc res _ 0 h]

/-! ### Claims -/

/-- C1: for every declared render target of a `RenderPassNode` and every
attachment slot whose outgoing `ResourceNode` has at least one surviving
(active) reader, after `resolve()` runs the discard-at-end flag for that slot
is cleared in the backend parameter block. -/
theorem claim1_discard_end_cleared_for_active_readers (env : ResourceNodeEnv)
    (node : RenderPassNode) (rt : RenderTargetData) (i : Fin 6) (n : Nat)
    (hrt : rt ∈ node.mRenderTargetData) (hout : rt.outgoing i = some n)
    (hread : env.hasActiveReaders n = true) :
    resolveRenderTarget env rt ∈ (RenderPassNode.resolve env node).mRenderTargetData ∧
    ((resolveRenderTarget env rt).backend.params.flags.discardEnd).testBit (i : Nat) =
      false := by
  constructor
  · exact List.mem_map_of_mem _ hrt
  · have hm : (i : Nat) < 6 := i.isLt
    rw [resolveRT_de_testBit, dif_pos hm, Fin.eta]
    simp [usedB, readersB, hout, hread]

/-- Witness for C1 at a concrete pass: one render target using COLOR0, whose
outgoing node (id 0) has active readers; after resolve, discard-at-end bit 0 is
cleared. -/
def rtW1 : RenderTargetData :=
  { descriptor := { attachments := { color := fun _ => none, depth := none, stencil := none } },
    outgoing := fun i => if i = 0 then some 0 else none }

/-- Environment for the C1 witness: every node has active readers and a writer. -/
def envW1 : ResourceNodeEnv := { hasWriter := fun _ => true, hasActiveReaders := fun _ => true }

/-- Node for the C1 witness. -/
def nodeW1 : RenderPassNode := { mRenderTargetData := [rtW1] }

theorem claim1_witness :
    rtW1 ∈ nodeW1.mRenderTargetData ∧ rtW1.outgoing 0 = some 0 ∧
      envW1.hasActiveReaders 0 = true ∧
      ((resolveRenderTarget envW1 rtW1).backend.params.flags.discardEnd).testBit 0 = false :=
  ⟨by simp [nodeW1], by simp [rtW1], rfl,
    (claim1_discard_end_cleared_for_active_readers envW1 nodeW1 rtW1 0 0
      (by simp [nodeW1]) (by simp [rtW1]) rfl).2⟩

/-- Render target for the C2 counterexample: COLOR0 used, its incoming node
(id 1) present, and COLOR0 in the declared clear flags. -/
def cexRT2 : RenderTargetData :=
  { descriptor :=
      { attachments := { color := fun _ => none, depth := none, stencil := none },
        clearFlags := TargetBufferFlags.COLOR0 },
    incoming := fun i => if i = 0 then some 1 else none,
    outgoing := fun i => if i = 0 then some 0 else none }

/-- Environment for the C2 counterexample: node 1 (the incoming node) has a
writer. -/
def cexEnv2 : ResourceNodeEnv := { hasWriter := fun _ => true, hasActiveReaders := fun _ => false }

/-- C2 counterexample: the incoming node of slot COLOR0 exists and has a writer,
yet after `resolve()` the discard-at-start flag for COLOR0 is SET, because the
declared clear flags include COLOR0 and `resolve` ORs the clear flags back into
discard-at-start after clearing it (PassNode.cpp:163).  So the claim's
"discard-at-start is cleared ... regardless" is false as stated. -/
theorem claim2_counterexample :
    cexRT2.incoming 0 = some 1 ∧ cexEnv2.hasWriter 1 = true ∧
      ((resolveRenderTarget cexEnv2 cexRT2).backend.params.flags.discardStart).testBit 0 =
        true := by
  refine ⟨rfl, rfl, ?_⟩
  rw [resolveRT_ds_testBit]
  simp [usedB, writerB, cexRT2, cexEnv2, TargetBufferFlags.COLOR0]

/-- C2 (amended): for a used attachment slot whose incoming `ResourceNode`
exists and has a writer, after `resolve()` the discard-at-start bit of the slot
equals the corresponding declared clear-flag bit (so it is cleared unless the
declared clear flags cover the slot), regardless of readers. -/
theorem claim2_amended_discard_start (env : ResourceNodeEnv) (node : RenderPassNode)
    (rt : RenderTargetData) (i : Fin 6) (m : Nat)
    (hrt : rt ∈ node.mRenderTargetData) (hused : usedB rt i = true)
    (hin : rt.incoming i = some m) (hw : env.hasWriter m = true) :
    resolveRenderTarget env rt ∈ (RenderPassNode.resolve env node).mRenderTargetData ∧
    ((resolveRenderTarget env rt).backend.params.flags.discardStart).testBit (i : Nat) =
      rt.descriptor.clearFlags.testBit (i : Nat) := by
  constructor
  · exact List.mem_map_of_mem _ hrt
  · have hm : (i : Nat) < 6 := i.isLt
    rw [resolveRT_ds_testBit, dif_pos hm, Fin.eta]
    simp [hused, writerB, hin, hw]

theorem claim2_amended_witness :
    usedB cexRT2 0 = true ∧ cexRT2.incoming 0 = some 1 ∧ cexEnv2.hasWriter 1 = true ∧
      ((resolveRenderTarget cexEnv2 cexRT2).backend.params.flags.discardStart).testBit 0 =
        cexRT2.descriptor.clearFlags.testBit 0 :=
  ⟨by decide, rfl, rfl,
    (claim2_amended_discard_start cexEnv2 { mRenderTargetData := [cexRT2] } cexRT2 0 1
      (by simp) (by decide) rfl rfl).2⟩

/-- C9: `resolve()` is idempotent: running it twice on the same pass, with the
same reader/writer environment and no intervening change, yields the same node
state (hence identical backend parameter blocks and `targetBufferFlags` for
every render target) as running it once. -/
theorem claim9_resolve_idempotent (env : ResourceNodeEnv) (node : RenderPassNode) :
    RenderPassNode.resolve env (RenderPassNode.resolve env node) =
      RenderPassNode.resolve env node := by
  unfold RenderPassNode.resolve
  simp [List.map_map, Function.comp_def, resolveRT_idem]

/-- For a render target whose only used slot is COLOR0 and whose active-buffer
mask starts at NONE, `resolve` computes `targetBufferFlags = COLOR0`. -/
theorem resolveRT_tbf_single_color0 (env : ResourceNodeEnv) (rt : RenderTargetData) (n : Nat)
    (hout0 : rt.outgoing 0 = some n)
    (h1 : rt.outgoing 1 = none) (h2 : rt.outgoing 2 = none) (h3 : rt.outgoing 3 = none)
    (h4 : rt.outgoing 4 = none) (h5 : rt.outgoing 5 = none)
    (htbf : rt.targetBufferFlags = 0) :
    (resolveRenderTarget env rt).targetBufferFlags = TargetBufferFlags.COLOR0 := by
  apply Nat.eq_of_testBit_eq
  intro m
  rw [resolveRT_tbf_testBit]
  have hc : TargetBufferFlags.COLOR0 = 2 ^ 0 := rfl
  rw [hc, Nat.testBit_two_pow, htbf]
  by_cases hm : m < 6
  · interval_cases m <;> simp [usedB, hout0, h1, h2, h3, h4, h5]
  · have h0 : ¬((0 : Nat) = m) := by omega
    simp [hm, h0]

/-- Render target for the C5 counterexample: a single pass using only COLOR0,
no incoming nodes, declared clear flags = DEPTH (not COLOR0). -/
def cexRT5 : RenderTargetData :=
  { descriptor :=
      { attachments := { color := fun _ => none, depth := none, stencil := none },
        clearFlags := TargetBufferFlags.DEPTH },
    outgoing := fun i => if i = 0 then some 0 else none }

/-- Environment for the C5 counterexample: no writers, no active readers
anywhere (so COLOR0 has no prior writer and no surviving reader). -/
def cexEnv5 : ResourceNodeEnv :=
  { hasWriter := fun _ => false, hasActiveReaders := fun _ => false }

/-- C5 counterexample: the scenario's hypotheses hold (single target using only
COLOR0, no prior writer, no surviving reader), yet the backend clear mask after
`resolve()` is NOT equal to the declared clear flags: the code computes
`clearFlags & targetBufferFlags` (PassNode.cpp:173), which drops the declared
DEPTH bit because only COLOR0 is active.  So "backend clear flags equal to the
declared clear flags" is false as stated. -/
theorem claim5_counterexample :
    cexRT5.outgoing 0 = some 0 ∧
    cexRT5.outgoing 1 = none ∧ cexRT5.outgoing 2 = none ∧ cexRT5.outgoing 3 = none ∧
    cexRT5.outgoing 4 = none ∧ cexRT5.outgoing 5 = none ∧
    cexRT5.incoming 0 = none ∧ cexEnv5.hasActiveReaders 0 = false ∧
    cexRT5.descriptor.clearFlags = TargetBufferFlags.DEPTH ∧
    (resolveRenderTarget cexEnv5 cexRT5).backend.params.flags.clear ≠
      cexRT5.descriptor.clearFlags := by
  refine ⟨rfl, rfl, rfl, rfl, rfl, rfl, rfl, rfl, rfl, ?_⟩
  rw [resolveRT_clear,
    resolveRT_tbf_single_color0 cexEnv5 cexRT5 0 rfl rfl rfl rfl rfl rfl rfl]
  simp [cexRT5, TargetBufferFlags.DEPTH, TargetBufferFlags.COLOR0]

/-- C5 (amended): for a freshly declared render target (backend parameter block
and active-buffer mask still at their defaults) whose only used slot is COLOR0,
with no prior writer and no surviving reader, `resolve()` produces
discard-at-start = true and discard-at-end = true for COLOR0, and backend clear
flags equal to the declared clear flags restricted to the active-buffer set
(here COLOR0) — not the unrestricted declared clear flags. -/
theorem claim5_amended_single_transient_pass (env : ResourceNodeEnv)
    (rt : RenderTargetData) (n : Nat)
    (hout0 : rt.outgoing 0 = some n)
    (h1 : rt.outgoing 1 = none) (h2 : rt.outgoing 2 = none) (h3 : rt.outgoing 3 = none)
    (h4 : rt.outgoing 4 = none) (h5 : rt.outgoing 5 = none)
    (hnw : writerB env rt 0 = false)
    (hnr : env.hasActiveReaders n = false)
    (hb : rt.backend = {}) (htbf : rt.targetBufferFlags = 0) :
    ((resolveRenderTarget env rt).backend.params.flags.discardStart).testBit 0 = true ∧
    ((resolveRenderTarget env rt).backend.params.flags.discardEnd).testBit 0 = true ∧
    (resolveRenderTarget env rt).backend.params.flags.clear =
      rt.descriptor.clearFlags &&& TargetBufferFlags.COLOR0 := by
  refine ⟨?_, ?_, ?_⟩
  · rw [resolveRT_ds_testBit]
    simp [usedB, hout0, hnw]
  · rw [resolveRT_de_testBit]
    simp [usedB, readersB, hout0, hnr]
  · rw [resolveRT_clear, resolveRT_tbf_single_color0 env rt n hout0 h1 h2 h3 h4 h5 htbf]

theorem claim5_amended_witness :
    writerB cexEnv5 cexRT5 0 = false ∧ cexEnv5.hasActiveReaders 0 = false ∧
    cexRT5.backend = {} ∧ cexRT5.targetBufferFlags = 0 ∧
    ((resolveRenderTarget cexEnv5 cexRT5).backend.params.flags.discardStart).testBit 0 =
      true ∧
    ((resolveRenderTarget cexEnv5 cexRT5).backend.params.flags.discardEnd).testBit 0 =
      true ∧
    (resolveRenderTarget cexEnv5 cexRT5).backend.params.flags.clear =
      cexRT5.descriptor.clearFlags &&& TargetBufferFlags.COLOR0 := by
  have h := claim5_amended_single_transient_pass cexEnv5 cexRT5 0 rfl rfl rfl rfl rfl rfl
    rfl rfl rfl rfl
  exact ⟨rfl, rfl, rfl, rfl, h.1, h.2.1, h.2.2⟩

/-- C6: after `resolve()`, for every declared render target: the declared clear
flags restricted to the target's active-buffer set are OR'ed into
discard-at-start (every set bit of `clearFlags & targetBufferFlags` is set in
discard-at-start), the backend clear mask equals `clearFlags &
targetBufferFlags`, and the declared clear color and viewport are copied
verbatim into the backend parameter block.  The declared sample count is kept
unchanged in the descriptor (the source's `rt.descriptor.samples =
rt.descriptor.samples` is a self-assignment; `execute` reads the sample count
from the descriptor when it hands it to the backend.) -/
theorem claim6_clear_and_copies (env : ResourceNodeEnv) (node : RenderPassNode)
    (rt : RenderTargetData) (hrt : rt ∈ node.mRenderTargetData) :
    resolveRenderTarget env rt ∈ (RenderPassNode.resolve env node).mRenderTargetData ∧
    (∀ m : Nat,
      (rt.descriptor.clearFlags &&&
        (resolveRenderTarget env rt).targetBufferFlags).testBit m = true →
      ((resolveRenderTarget env rt).backend.params.flags.discardStart).testBit m = true) ∧
    (resolveRenderTarget env rt).backend.params.flags.clear =
      rt.descriptor.clearFlags &&& (resolveRenderTarget env rt).targetBufferFlags ∧
    (resolveRenderTarget env rt).backend.params.clearColor = rt.descriptor.clearColor ∧
    (resolveRenderTarget env rt).backend.params.viewport = rt.descriptor.viewport ∧
    (resolveRenderTarget env rt).descriptor.samples = rt.descriptor.samples := by
  refine ⟨List.mem_map_of_mem _ hrt, ?_, resolveRT_clear env rt,
    resolveRT_clearColor env rt, resolveRT_viewport env rt, ?_⟩
  · intro m hcm
    rw [Nat.testBit_land, Bool.and_eq_true] at hcm
    obtain ⟨hcf, htbf⟩ := hcm
    rw [resolveRT_tbf_testBit] at htbf
    rw [resolveRT_ds_testBit]
    by_cases hm : m < 6
    · rw [dif_pos hm]
      rw [dif_pos hm] at htbf
      by_cases hu : usedB rt ⟨m, hm⟩
      · simp [hu, hcf]
      · simp only [hu, if_false, Bool.if_false_right, Bool.if_true_left] at htbf ⊢
        simp [hcf]
        simp [hu] at htbf
        exact Or.inr htbf
    · rw [dif_neg hm]
      rw [dif_neg hm] at htbf
      simp at htbf
      simp [hcf, htbf]
  · rw [resolveRT_descriptor]

/-- Render target for the C6 witness: COLOR0 used, clear flags COLOR0, distinct
clear color, viewport and sample count to exercise the copies. -/
def rtW6 : RenderTargetData :=
  { descriptor :=
      { attachments := { color := fun _ => none, depth := none, stencil := none },
        viewport := ⟨1, 2, 3, 4⟩,
        clearColor := 7,
        samples := 4,
        clearFlags := TargetBufferFlags.COLOR0 },
    outgoing := fun i => if i = 0 then some 0 else none }

/-- Environment for the C6 witness. -/
def envW6 : ResourceNodeEnv :=
  { hasWriter := fun _ => false, hasActiveReaders := fun _ => false }

/-- Node for the C6 witness. -/
def nodeW6 : RenderPassNode := { mRenderTargetData := [rtW6] }

theorem claim6_witness :
    (resolveRenderTarget envW6 rtW6).backend.params.clearColor = rtW6.descriptor.clearColor ∧
    (resolveRenderTarget envW6 rtW6).backend.params.viewport = rtW6.descriptor.viewport ∧
    (resolveRenderTarget envW6 rtW6).descriptor.samples = rtW6.descriptor.samples ∧
    ((resolveRenderTarget envW6 rtW6).backend.params.flags.discardStart).testBit 0 =
      true := by
  have h := claim6_clear_and_copies envW6 nodeW6 rtW6 (by simp [nodeW6])
  refine ⟨h.2.2.2.1, h.2.2.2.2.1, h.2.2.2.2.2, h.2.1 0 ?_⟩
  rw [Nat.testBit_land, resolveRT_tbf_testBit]
  simp [rtW6, usedB, TargetBufferFlags.COLOR0]

/-- Render target for the C3 counterexample: declared with no attachments at
all, so no slot is used and the active-buffer flag set stays empty. -/
def cexRT3 : RenderTargetData :=
  { descriptor := { attachments := { color := fun _ => none, depth := none, stencil := none } } }

/-- Node for the C3 counterexample. -/
def cexNode3 : RenderPassNode := { mRenderTargetData := [cexRT3] }

/-- Environment for the C3 counterexample. -/
def cexEnv3 : ResourceNodeEnv :=
  { hasWriter := fun _ => false, hasActiveReaders := fun _ => false }

/-- Allocator for the C3 counterexample. -/
def cexAlloc3 : AllocatorEnv := { createHandle := fun k => k }

/-- Resources view for the C3 counterexample. -/
def cexRes3 : Resources := { get := fun h => h }

/-- C3 counterexample: on a render target declared with zero active buffer
flags, `resolve()` runs to completion with NO assertion — it simply leaves the
target's active-buffer flag set empty — and the assertion
`assert(any(rt.targetBufferFlags))` fails at `execute()` time
(PassNode.cpp:54), not at resolve time.  This refutes "checked via assertion at
resolve time". -/
theorem claim3_counterexample :
    ((RenderPassNode.resolve cexEnv3 cexNode3).mRenderTargetData.map
       (fun rt => rt.targetBufferFlags)) = [0] ∧
    (RenderPassNode.resolve cexEnv3 cexNode3).execute cexAlloc3 cexRes3 = none :=
  ⟨rfl, rfl⟩

/-- C3 (amended): a render target declared with zero active buffer flags is a
fatal error checked via assertion at EXECUTE time: `execute()` asserts that
every declared render target's active-buffer flag set is non-empty, and under
the precondition that every declared render target has at least one used
attachment slot, after `resolve()` has run the assertion failure branch is
unreachable. -/
theorem claim3_amended_assert_at_execute (env : ResourceNodeEnv) (alloc : AllocatorEnv)
    (res : Resources) (node : RenderPassNode)
    (h : ∀ rt ∈ node.mRenderTargetData, ∃ i : Fin 6, (rt.outgoing i).isSome = true) :
    (∀ node2 : RenderPassNode,
      (∃ rt ∈ node2.mRenderTargetData, rt.targetBufferFlags = 0) →
        node2.execute alloc res = none) ∧
    (∀ rt ∈ (RenderPassNode.resolve env node).mRenderTargetData,
      rt.targetBufferFlags ≠ 0) ∧
    ((RenderPassNode.resolve env node).execute alloc res).isSome = true := by
  have key : ∀ rt ∈ (RenderPassNode.resolve env node).mRenderTargetData,
      rt.targetBufferFlags ≠ 0 := by
    intro rt hrt
    unfold RenderPassNode.resolve at hrt
    simp only [List.mem_map] at hrt
    obtain ⟨rt0, hrt0, rfl⟩ := hrt
    obtain ⟨i, hi⟩ := h rt0 hrt0
    intro h0
    have hbit : ((resolveRenderTarget env rt0).targetBufferFlags).testBit (i : Nat) =
        true := by
      rw [resolveRT_tbf_testBit, dif_pos i.isLt, Fin.eta]
      simp [usedB, hi]
    rw [h0, Nat.zero_testBit] at hbit
    exact Bool.false_ne_true hbit
  refine ⟨fun node2 h2 => execute_none alloc res node2 h2, key, ?_⟩
  rw [execute_eq alloc res _ key]
  rfl

/-- Render target for the C3 witness: COLOR0 slot used. -/
def rtW3 : RenderTargetData :=
  { descriptor := { attachments := { color := fun _ => none, depth := none, stencil := none } },
    outgoing := fun i => if i = 0 then some 0 else none }

/-- Node for the C3 witness. -/
def nodeW3 : RenderPassNode := { mRenderTargetData := [rtW3] }

theorem claim3_witness :
    ((RenderPassNode.resolve cexEnv3 nodeW3).execute cexAlloc3 cexRes3).isSome = true :=
  (claim3_amended_assert_at_execute cexEnv3 cexAlloc3 cexRes3 nodeW3 (by decide)).2.2

theorem normalizeIncoming_outgoing (data : RenderTargetData) :
    (normalizeIncoming data).outgoing = data.outgoing := rfl

theorem normalizeIncoming_attachmentInfo (data : RenderTargetData) :
    (normalizeIncoming data).attachmentInfo = data.attachmentInfo := rfl

theorem normalizeIncoming_descriptor (data : RenderTargetData) :
    (normalizeIncoming data).descriptor = data.descriptor := rfl

theorem normalizeIncoming_incoming (data : RenderTargetData) (i : Fin 6) :
    (normalizeIncoming data).incoming i =
      if data.outgoing i = data.incoming i then none else data.incoming i := rfl

/-- C4: after `declareRenderTarget`, if the incoming node of a slot would equal
the outgoing node, the stored incoming node is null (treated as absent); hence
no stored slot has a present incoming node equal to its outgoing node.  The
third conjunct ties the stored `RenderTargetData` to the node's vector. -/
theorem claim4_incoming_absent_when_equal (fg : FrameGraphEnv) (b : Builder)
    (d : Descriptor) (node : RenderPassNode) (i : Fin 6) :
    ((declareLoop fg b d).outgoing i = (declareLoop fg b d).incoming i →
      (mkRenderTargetData fg b d).incoming i = none) ∧
    ((mkRenderTargetData fg b d).incoming i ≠ none →
      (mkRenderTargetData fg b d).incoming i ≠ (mkRenderTargetData fg b d).outgoing i) ∧
    (node.declareRenderTarget fg b d).1.mRenderTargetData =
      node.mRenderTargetData ++ [mkRenderTargetData fg b d] := by
  refine ⟨?_, ?_, rfl⟩
  · intro heq
    unfold mkRenderTargetData
    rw [normalizeIncoming_incoming, if_pos heq]
  · intro hne
    unfold mkRenderTargetData at hne ⊢
    rw [normalizeIncoming_incoming] at hne ⊢
    rw [normalizeIncoming_outgoing]
    by_cases heq : (declareLoop fg b d).outgoing i = (declareLoop fg b d).incoming i
    · exact absurd (by rw [if_pos heq]) hne
    · rw [if_neg heq]
      exact fun hc => heq hc.symm

/-- Frame graph environment for the C4 witness: `getResourceNode` is constant,
so the incoming and outgoing nodes of a first-use slot coincide. -/
def fgW4 : FrameGraphEnv := { getResourceNode := fun _ => 7 }

/-- Builder for the C4 witness. -/
def bW4 : Builder := { write := fun h _ => h + 1 }

/-- Descriptor for the C4 witness: only COLOR0 attached (handle 5). -/
def dW4 : Descriptor :=
  { attachments :=
      { color := fun i => if i = 0 then some 5 else none, depth := none, stencil := none } }

theorem claim4_witness :
    (declareLoop fgW4 bW4 dW4).outgoing 0 = (declareLoop fgW4 bW4 dW4).incoming 0 ∧
    (mkRenderTargetData fgW4 bW4 dW4).incoming 0 = none :=
  ⟨by decide,
    (claim4_incoming_absent_when_equal fgW4 bW4 dW4 { mRenderTargetData := [] } 0).1
      (by decide)⟩

/-- C7: for every valid attachment slot passed to `declareRenderTarget`, the
stored data records the slot's current `ResourceNode` as incoming, registers a
write through the builder (producing the handle of a new resource version),
records the `ResourceNode` of the new version as outgoing and the new handle as
the resolved attachment info (also visible in the returned attachments); slots
with an invalid handle are left untouched.  The incoming-node hypothesis
`fg.getResourceNode hdl ≠ fg.getResourceNode (b.write hdl (slotUsage i))`
expresses the claim's premise that the write produced a NEW resource version
(otherwise the incoming node is normalized away; see C4). -/
theorem claim7_declare_records_slots (fg : FrameGraphEnv) (b : Builder) (d : Descriptor)
    (node : RenderPassNode) (i : Fin 6) :
    (∀ hdl : Nat, d.attachments.slot i = some hdl →
      fg.getResourceNode hdl ≠ fg.getResourceNode (b.write hdl (slotUsage i)) →
      (mkRenderTargetData fg b d).incoming i = some (fg.getResourceNode hdl) ∧
      (mkRenderTargetData fg b d).outgoing i =
        some (fg.getResourceNode (b.write hdl (slotUsage i))) ∧
      (mkRenderTargetData fg b d).attachmentInfo i = some (b.write hdl (slotUsage i)) ∧
      (node.declareRenderTarget fg b d).2.attachments.slot i =
        some (b.write hdl (slotUsage i))) ∧
    (d.attachments.slot i = none →
      (mkRenderTargetData fg b d).incoming i = none ∧
      (mkRenderTargetData fg b d).outgoing i = none ∧
      (mkRenderTargetData fg b d).attachmentInfo i = none) := by
  constructor
  · intro hdl hslot hneq
    have hin := declareLoop_incoming_some fg b d i hdl hslot
    have hout := declareLoop_outgoing_some fg b d i hdl hslot
    have hcond : ¬((declareLoop fg b d).outgoing i = (declareLoop fg b d).incoming i) := by
      rw [hin, hout]
      intro hc
      exact hneq (Option.some.inj hc).symm
    refine ⟨?_, ?_, ?_, ?_⟩
    · unfold mkRenderTargetData
      rw [normalizeIncoming_incoming, if_neg hcond, hin]
    · unfold mkRenderTargetData
      rw [normalizeIncoming_outgoing, hout]
    · unfold mkRenderTargetData
      rw [normalizeIncoming_attachmentInfo]
      exact declareLoop_attachmentInfo_some fg b d i hdl hslot
    · show (mkRenderTargetData fg b d).descriptor.attachments.slot i = _
      unfold mkRenderTargetData
      rw [normalizeIncoming_descriptor]
      exact declareLoop_slot_some fg b d i hdl hslot
  · intro hslot
    refine ⟨?_, ?_, ?_⟩
    · unfold mkRenderTargetData
      rw [normalizeIncoming_incoming, declareLoop_incoming_none fg b d i hslot,
        declareLoop_outgoing_none fg b d i hslot, if_pos rfl]
    · unfold mkRenderTargetData
      rw [normalizeIncoming_outgoing]
      exact declareLoop_outgoing_none fg b d i hslot
    · unfold mkRenderTargetData
      rw [normalizeIncoming_attachmentInfo]
      exact declareLoop_attachmentInfo_none fg b d i hslot

/-- Frame graph environment for the C7 witness: `getResourceNode` is the
identity, so the written handle (h+1) maps to a different node than h. -/
def fgW7 : FrameGraphEnv := { getResourceNode := fun h => h }

/-- Builder for the C7 witness. -/
def bW7 : Builder := { write := fun h _ => h + 1 }

/-- Descriptor for the C7 witness: COLOR0 attached with handle 5, COLOR1 empty. -/
def dW7 : Descriptor :=
  { attachments :=
      { color := fun i => if i = 0 then some 5 else none, depth := none, stencil := none } }

theorem claim7_witness :
    (mkRenderTargetData fgW7 bW7 dW7).incoming 0 = some 5 ∧
    (mkRenderTargetData fgW7 bW7 dW7).outgoing 0 = some 6 ∧
    (mkRenderTargetData fgW7 bW7 dW7).attachmentInfo 0 = some 6 ∧
    (mkRenderTargetData fgW7 bW7 dW7).incoming 1 = none ∧
    (mkRenderTargetData fgW7 bW7 dW7).outgoing 1 = none ∧
    (mkRenderTargetData fgW7 bW7 dW7).attachmentInfo 1 = none := by
  have h0 := (claim7_declare_records_slots fgW7 bW7 dW7 { mRenderTargetData := [] } 0).1
    5 rfl (by decide)
  have h1 := (claim7_declare_records_slots fgW7 bW7 dW7 { mRenderTargetData := [] } 1).2
    rfl
  exact ⟨h0.1, h0.2.1, h0.2.2.1, h1.1, h1.2.1, h1.2.2⟩

/-- C8: within one `execute()` invocation, `createRenderTarget` is called
exactly once per declared render target (one create event per entry of
`mRenderTargetData`, in order) and `destroyRenderTarget` exactly once on each
handle so created; every create precedes the executor callback and every
destroy follows it, so the handles are created and destroyed bracketed within
the same invocation and none survives it (each stored `backend.target` is the
handle that is destroyed before `execute` returns).  Handles come from the
allocator per-invocation (`alloc.createHandle k` for the k-th create), so they
are never shared across passes. -/
theorem claim8_execute_bracketed (alloc : AllocatorEnv) (res : Resources)
    (node : RenderPassNode)
    (h : ∀ rt ∈ node.mRenderTargetData, rt.targetBufferFlags ≠ 0) :
    node.execute alloc res =
      some ({ mRenderTargetData := (node.mRenderTargetData.enumFrom 0).map
                (fun p => { p.2 with backend.target := some (alloc.createHandle p.1) }) },
            ((node.mRenderTargetData.enumFrom 0).map
              (fun p => ExecuteEvent.createRenderTarget (mkCreateArgs res p.2)
                (alloc.createHandle p.1))) ++
            [ExecuteEvent.executorCall] ++
            ((node.mRenderTargetData.enumFrom 0).map
              (fun p => ExecuteEvent.destroyRenderTarget
                (some (alloc.createHandle p.1))))) :=
  execute_eq alloc res node h

/-- Render target for the C8 witness (active-buffer mask COLOR0). -/
def rtW8 : RenderTargetData :=
  { descriptor := { attachments := { color := fun _ => none, depth := none, stencil := none } },
    targetBufferFlags := 1 }

/-- Node for the C8 witness. -/
def nodeW8 : RenderPassNode := { mRenderTargetData := [rtW8] }

/-- Allocator for the C8 witness. -/
def allocW8 : AllocatorEnv := { createHandle := fun k => 100 + k }

/-- Resources view for the C8 witness. -/
def resW8 : Resources := { get := fun h => h }

theorem claim8_witness :
    nodeW8.execute allocW8 resW8 =
      some ({ mRenderTargetData := [{ rtW8 with backend.target := some 100 }] },
            [ExecuteEvent.createRenderTarget (mkCreateArgs resW8 rtW8) 100,
             ExecuteEvent.executorCall,
             ExecuteEvent.destroyRenderTarget (some 100)]) :=
  claim8_execute_bracketed allocW8 resW8 nodeW8 (by decide)

/-- C10: `declareRenderTarget` assigns render-target ids sequentially in
declaration order: the returned id equals the number of previously declared
render targets, `getRenderTargetData` at that id (given the bounds
precondition) returns exactly the newly stored `RenderTargetData`, and the
data stored by earlier declarations is unchanged at its old id. -/
theorem claim10_sequential_ids (fg : FrameGraphEnv) (b : Builder) (d : Descriptor)
    (node : RenderPassNode) :
    (node.declareRenderTarget fg b d).2.id = node.mRenderTargetData.length ∧
    (∀ h : (node.declareRenderTarget fg b d).2.id <
        ((node.declareRenderTarget fg b d).1).mRenderTargetData.length,
      ((node.declareRenderTarget fg b d).1).getRenderTargetData
        ((node.declareRenderTarget fg b d).2.id) h = mkRenderTargetData fg b d) ∧
    (∀ (j : Nat) (hj : j < node.mRenderTargetData.length)
        (hj2 : j < ((node.declareRenderTarget fg b d).1).mRenderTargetData.length),
      ((node.declareRenderTarget fg b d).1).getRenderTargetData j hj2 =
        node.getRenderTargetData j hj) := by
  refine ⟨rfl, ?_, ?_⟩
  · intro h
    unfold RenderPassNode.getRenderTargetData
    simp [RenderPassNode.declareRenderTarget]
  · intro j hj hj2
    unfold RenderPassNode.getRenderTargetData
    simp only [List.get_eq_getElem]
    exact List.getElem_append_left hj

/-- Frame graph environment for the C10 witness. -/
def fgW10 : FrameGraphEnv := { getResourceNode := fun h => h }

/-- Builder for the C10 witness. -/
def bW10 : Builder := { write := fun h _ => h + 1 }

/-- Descriptor for the C10 witness: COLOR0 attached with handle 3. -/
def dW10 : Descriptor :=
  { attachments :=
      { color := fun i => if i = 0 then some 3 else none, depth := none, stencil := none } }

/-- Node for the C10 witness: starts empty. -/
def nodeW10 : RenderPassNode := { mRenderTargetData := [] }

theorem claim10_witness :
    (nodeW10.declareRenderTarget fgW10 bW10 dW10).2.id = 0 ∧
    ((nodeW10.declareRenderTarget fgW10 bW10 dW10).1).getRenderTargetData 0
        (by decide) = mkRenderTargetData fgW10 bW10 dW10 :=
  ⟨(claim10_sequential_ids fgW10 bW10 dW10 nodeW10).1,
   (claim10_sequential_ids fgW10 bW10 dW10 nodeW10).2.1 (by decide)⟩

end Filament
